import Mathlib

set_option autoImplicit false

/-!
Verification of the TMVA SOFIE `ROperator_ConvTranspose` operator
(shape inference, initialization, code generation) and of the RooFit
`RooJohnson` probability density function, as implemented in the
repository sources.  C++ `std::vector<size_t>` is modelled by `List Nat`
(`v[i]` becomes `v.getD i 0`; every index proved about is in range, so
the default is never observed), C++ `double` by `ℝ`, and exceptions by
`Except String`.
-/

/-- State of `ROperator_ConvTranspose<T>`: the tensor names, the attribute
vectors and the cached shapes, exactly the data members the source reads
and writes. -/
structure ROperatorConvTranspose where
  fNX : String
  fNW : String
  fNB : String
  fNY : String
  fNBroadcastedB : String
  fAttrAutopad : String
  fAttrDilations : List Nat
  fAttrGroup : Nat
  fAttrKernelShape : List Nat
  fAttrOutputPadding : List Nat
  fAttrOutputShape : List Nat
  fAttrPads : List Nat
  fAttrStrides : List Nat
  fShapeX : List Nat
  fShapeW : List Nat
  fShapeB : List Nat
  fShapeY : List Nat
  fDim : Nat
  fType : String
  fUseSession : Bool
  deriving Repr, DecidableEq

/-- Embedding of `ROperator_ConvTranspose<T>::ShapeInference`.  The call
mutates the operator (defaulted attributes are filled in) and returns the
list of output shapes; both the updated operator and the returned list are
produced.  The padding loop of the source writes `fAttrPads[i]` and
`fAttrPads[i + fDim]` for `i < fDim`; it is rendered as the concatenation
of the first-half and second-half lists.  The output shape is the batch
size and channel count followed by the spatial extents, as the source
builds it for the ranks (at least two) that `Initialize` admits. -/
def shapeInference (op : ROperatorConvTranspose) (input : List (List Nat)) :
    ROperatorConvTranspose × List (List Nat) :=
  let inputShape := input.getD 0 []
  let weightShape := input.getD 1 []
  let size := inputShape.length
  let fDim := size - 2
  let fAttrGroup := if op.fAttrGroup = 0 then 1 else op.fAttrGroup
  let fAttrStrides :=
    if op.fAttrStrides.isEmpty then List.replicate fDim 1 else op.fAttrStrides
  let fAttrDilations :=
    if op.fAttrDilations.isEmpty then List.replicate fDim 1 else op.fAttrDilations
  let fAttrKernelShape :=
    if op.fAttrKernelShape.isEmpty then
      (List.range fDim).map (fun i =>
        op.fShapeW.getD (i + 2) 0 +
          (fAttrDilations.getD i 0 - 1) * (op.fShapeW.getD (i + 2) 0 - 1))
    else op.fAttrKernelShape
  let fAttrOutputPadding :=
    if op.fAttrOutputPadding.isEmpty then List.replicate fDim 0 else op.fAttrOutputPadding
  let fAttrOutputShape :=
    if op.fAttrOutputShape.isEmpty then
      (List.range fDim).map (fun i =>
        fAttrStrides.getD i 0 * (inputShape.getD (i + 2) 0 - 1) +
          fAttrKernelShape.getD i 0 - fAttrOutputPadding.getD i 0)
    else op.fAttrOutputShape
  let fAttrPads :=
    if op.fAttrPads.isEmpty then
      let totalPadding := (List.range fDim).map (fun i =>
        fAttrStrides.getD i 0 * (fAttrOutputShape.getD i 0 - 1) +
          fAttrOutputPadding.getD i 0 + fAttrKernelShape.getD i 0 -
          op.fShapeX.getD (i + 2) 0)
      ((List.range fDim).map (fun i =>
        if op.fAttrAutopad = "SAME_UPPER" then totalPadding.getD i 0 / 2
        else totalPadding.getD i 0 - totalPadding.getD i 0 / 2)) ++
      ((List.range fDim).map (fun i =>
        if op.fAttrAutopad = "SAME_UPPER" then
          totalPadding.getD i 0 - totalPadding.getD i 0 / 2
        else totalPadding.getD i 0 / 2))
    else op.fAttrPads
  let outShape :=
    inputShape.getD 0 0 :: weightShape.getD 1 0 * fAttrGroup ::
      (List.range fDim).map (fun i => fAttrOutputShape.getD i 0)
  ({ op with
      fDim := fDim, fAttrGroup := fAttrGroup, fAttrStrides := fAttrStrides,
      fAttrDilations := fAttrDilations, fAttrKernelShape := fAttrKernelShape,
      fAttrOutputPadding := fAttrOutputPadding, fAttrOutputShape := fAttrOutputShape,
      fAttrPads := fAttrPads },
   [outShape])

/-- Modelled from the spec: the enclosing SOFIE `RModel` (its code is not
among the repository files; the spec describes it as the model in which
every referenced tensor must already be declared and in which the operator
registers its output tensor).  It is an association list from tensor names
to shapes together with the session flag. -/
structure RModel where
  tensors : List (String × List Nat)
  useSession : Bool
  deriving Repr, DecidableEq

/-- Modelled from the spec: `RModel::CheckIfTensorAlreadyExist`, true when
the name is declared in the model. -/
def RModel.checkIfTensorAlreadyExist (m : RModel) (n : String) : Bool :=
  (m.tensors.lookup n).isSome

/-- Modelled from the spec: `RModel::GetTensorShape` of a declared
tensor. -/
def RModel.getTensorShape (m : RModel) (n : String) : List Nat :=
  (m.tensors.lookup n).getD []

/-- Modelled from the spec: `RModel::AddIntermediateTensor`, declaring a
new tensor with the given shape. -/
def RModel.addIntermediateTensor (m : RModel) (n : String) (shape : List Nat) :
    RModel :=
  { m with tensors := (n, shape) :: m.tensors }

/-- Modelled from the spec: `RModel::UpdateInitializedTensor` as used for
the in-place bias broadcast, replacing the shape stored under the name. -/
def RModel.updateTensorShape (m : RModel) (n : String) (shape : List Nat) :
    RModel :=
  { m with tensors := m.tensors.map (fun p => if p.1 = n then (n, shape) else p) }

/-- The operator as `Initialize` has set it up just before calling
`ShapeInference`: session flag, input shape, dimension and weight shape
read out of the model. -/
def convTransposeSetup (op : ROperatorConvTranspose) (model : RModel) :
    ROperatorConvTranspose :=
  { op with
      fUseSession := model.useSession,
      fShapeX := model.getTensorShape op.fNX,
      fDim := (model.getTensorShape op.fNX).length - 2,
      fShapeW := model.getTensorShape op.fNW }

/-- The `ShapeInference` call `Initialize` performs. -/
def convTransposeInferred (op : ROperatorConvTranspose) (model : RModel) :
    ROperatorConvTranspose × List (List Nat) :=
  shapeInference (convTransposeSetup op model)
    [model.getTensorShape op.fNX, model.getTensorShape op.fNW]

/-- The output shape `Initialize` derives for the operator: the first
shape returned by `ShapeInference` after the input and weight shapes have
been read out of the model. -/
def convTransposeShapeY (op : ROperatorConvTranspose) (model : RModel) : List Nat :=
  (convTransposeInferred op model).2.getD 0 []

/-- Embedding of `ROperator_ConvTranspose<T>::Initialize`.  Each
`throw std::runtime_error` of the source becomes an `Except.error` with
the source's message; on success the updated operator and model are
returned. -/
def convTransposeInit (op : ROperatorConvTranspose) (model : RModel) :
    Except String (ROperatorConvTranspose × RModel) :=
  if ¬model.checkIfTensorAlreadyExist op.fNX then
    .error ("TMVA SOFIE Conv Transpose op Input Tensor " ++ op.fNX ++
      " is not found in model")
  else if (model.getTensorShape op.fNX).length < 3 ∨
      (model.getTensorShape op.fNX).length > 5 then
    .error ("TMVA SOFIE Conv Transpose Op input data tensor" ++ op.fNX ++
      " is not of 3,4 or 5 dimensions")
  else if ¬model.checkIfTensorAlreadyExist op.fNW then
    .error ("TMVA SOFIE Conv op Input weight Tensor " ++ op.fNW ++
      " is not found in model")
  else if (model.getTensorShape op.fNW).length < 3 ∨
      (model.getTensorShape op.fNW).length > 5 then
    .error ("TMVA SOFIE Conv Transpose Op input weight tensor" ++ op.fNW ++
      " is not of 3,4 or 5 dimensions")
  else
    let res := convTransposeInferred op model
    let fShapeY := res.2.getD 0 []
    let model1 := model.addIntermediateTensor op.fNY fShapeY
    if op.fNB ≠ "" then
      if ¬model1.checkIfTensorAlreadyExist op.fNB then
        .error ("TMVA SOFIE Conv op Input Tensor " ++ op.fNB ++
          " is not found in model")
      else
        let fShapeB := model1.getTensorShape op.fNB
        if fShapeB.length ≠ fShapeY.length then
          if fShapeB.length < 1 then
            .error "TMVA SOFIE Conv op: Bias Tensor has empty shape"
          else if fShapeB.getD 0 0 ≠ fShapeY.getD 1 0 then
            .error "TMVA SOFIE Conv op: Bias Tensor has wrong shape"
          else if op.fType ≠ "float" then
            .error
              "TMVA SOFIE Conv op: Broadcasting for non-float type tensors is not supported"
          else if ¬model.useSession then
            let model2 := model1.updateTensorShape op.fNB fShapeY
            .ok ({ res.1 with
                fShapeY := fShapeY,
                fShapeB := model2.getTensorShape op.fNB,
                fNBroadcastedB := op.fNB }, model2)
          else
            let model2 := model1.addIntermediateTensor ("Broadcasted" ++ op.fNB) fShapeY
            .ok ({ res.1 with
                fShapeY := fShapeY, fShapeB := fShapeB,
                fNBroadcastedB := "Broadcasted" ++ op.fNB }, model2)
        else
          .ok ({ res.1 with fShapeY := fShapeY, fShapeB := fShapeB }, model1)
    else
      .ok ({ res.1 with fShapeY := fShapeY }, model1)

/-- ShapeInference leaves the tensor names untouched. -/
lemma shapeInference_fst_fNB (op : ROperatorConvTranspose) (input : List (List Nat)) :
    (shapeInference op input).1.fNB = op.fNB := by
  simp [shapeInference]

/-- ShapeInference leaves the output tensor name untouched. -/
lemma shapeInference_fst_fNY (op : ROperatorConvTranspose) (input : List (List Nat)) :
    (shapeInference op input).1.fNY = op.fNY := by
  simp [shapeInference]

/-- ShapeInference leaves the element type untouched. -/
lemma shapeInference_fst_fType (op : ROperatorConvTranspose) (input : List (List Nat)) :
    (shapeInference op input).1.fType = op.fType := by
  simp [shapeInference]

/-- ShapeInference leaves the session flag untouched. -/
lemma shapeInference_fst_fUseSession (op : ROperatorConvTranspose)
    (input : List (List Nat)) :
    (shapeInference op input).1.fUseSession = op.fUseSession := by
  simp [shapeInference]

/-- A freshly registered tensor is found in the model. -/
lemma RModel.checkExists_add_self (m : RModel) (n : String) (s : List Nat) :
    (m.addIntermediateTensor n s).checkIfTensorAlreadyExist n = true := by
  simp [RModel.addIntermediateTensor, RModel.checkIfTensorAlreadyExist, List.lookup]

/-- Registering a tensor keeps every previously declared tensor found. -/
lemma RModel.checkExists_add_mono (m : RModel) (a : String) (s : List Nat)
    (n : String) (h : m.checkIfTensorAlreadyExist n = true) :
    (m.addIntermediateTensor a s).checkIfTensorAlreadyExist n = true := by
  simp only [RModel.addIntermediateTensor, RModel.checkIfTensorAlreadyExist] at h ⊢
  by_cases hn : n = a
  · subst hn; simp [List.lookup]
  · simpa [List.lookup, beq_false_of_ne hn] using h

/-- Mapping a key-preserving function over an association list does not
change which keys can be looked up. -/
lemma lookup_isSome_map_of_keys_fixed {β : Type} (f : String × β → String × β)
    (hf : ∀ p, (f p).1 = p.1) (n : String) (l : List (String × β)) :
    (List.lookup n (l.map f)).isSome = (List.lookup n l).isSome := by
  induction l with
  | nil => rfl
  | cons p l ih =>
    obtain ⟨k, v⟩ := p
    rcases hfp : f (k, v) with ⟨k2, v2⟩
    have hk2 : k2 = k := by simpa [hfp] using hf (k, v)
    subst hk2
    simp only [List.map_cons, hfp, List.lookup]
    cases hb : (n == k2) <;> simp [ih]

/-- Updating a tensor's shape does not change which names are declared. -/
lemma RModel.checkExists_update (m : RModel) (a : String) (s : List Nat)
    (n : String) :
    (m.updateTensorShape a s).checkIfTensorAlreadyExist n =
      m.checkIfTensorAlreadyExist n := by
  simp only [RModel.updateTensorShape, RModel.checkIfTensorAlreadyExist]
  exact lookup_isSome_map_of_keys_fixed _
    (fun p => by by_cases h : p.1 = a <;> simp [h]) n m.tensors

set_option maxHeartbeats 2000000 in
/-- C5: `Initialize` succeeds exactly when the input and weight tensors
are declared with a rank in `[3,5]`, and, should a bias name be set, the
bias tensor is declared and any required broadcast has a consistent shape
and a float element type; on success the output tensor has been
registered in the model. -/
theorem convTransposeInit_failure_characterization (op : ROperatorConvTranspose)
    (model : RModel) :
    ((convTransposeInit op model).isOk = true ↔
      (model.checkIfTensorAlreadyExist op.fNX = true ∧
       ¬((model.getTensorShape op.fNX).length < 3 ∨
         (model.getTensorShape op.fNX).length > 5) ∧
       model.checkIfTensorAlreadyExist op.fNW = true ∧
       ¬((model.getTensorShape op.fNW).length < 3 ∨
         (model.getTensorShape op.fNW).length > 5) ∧
       (op.fNB = "" ∨
         ((model.addIntermediateTensor op.fNY
             (convTransposeShapeY op model)).checkIfTensorAlreadyExist op.fNB = true ∧
          (((model.addIntermediateTensor op.fNY
               (convTransposeShapeY op model)).getTensorShape op.fNB).length =
              (convTransposeShapeY op model).length ∨
            (¬((model.addIntermediateTensor op.fNY
                (convTransposeShapeY op model)).getTensorShape op.fNB).length < 1 ∧
             ((model.addIntermediateTensor op.fNY
                (convTransposeShapeY op model)).getTensorShape op.fNB).getD 0 0 =
               (convTransposeShapeY op model).getD 1 0 ∧
             op.fType = "float")))))) ∧
    (∀ op2 m2, convTransposeInit op model = .ok (op2, m2) →
      m2.checkIfTensorAlreadyExist op.fNY = true) := by
  unfold convTransposeInit convTransposeShapeY
  simp only []
  by_cases h1 : model.checkIfTensorAlreadyExist op.fNX = true
  · rw [if_neg (not_not_intro h1)]
    by_cases h2 : (model.getTensorShape op.fNX).length < 3 ∨
        (model.getTensorShape op.fNX).length > 5
    · rw [if_pos h2]
      refine ⟨iff_of_false (by simp [Except.isOk, Except.toBool])
        (fun hr => hr.2.1 h2), ?_⟩
      intro op2 m2 hcon
      simp at hcon
    · rw [if_neg h2]
      by_cases h3 : model.checkIfTensorAlreadyExist op.fNW = true
      · rw [if_neg (not_not_intro h3)]
        by_cases h4 : (model.getTensorShape op.fNW).length < 3 ∨
            (model.getTensorShape op.fNW).length > 5
        · rw [if_pos h4]
          refine ⟨iff_of_false (by simp [Except.isOk, Except.toBool])
            (fun hr => hr.2.2.2.1 h4), ?_⟩
          intro op2 m2 hcon
          simp at hcon
        · rw [if_neg h4]
          by_cases h5 : op.fNB = ""
          · rw [if_neg (by simpa using h5)]
            refine ⟨iff_of_true rfl ⟨h1, h2, h3, h4, Or.inl h5⟩, ?_⟩
            intro op2 m2 hok
            simp only [Except.ok.injEq, Prod.mk.injEq] at hok
            obtain ⟨-, h2m⟩ := hok
            subst h2m
            exact RModel.checkExists_add_self model op.fNY _
          · rw [if_pos h5]
            by_cases h6 : (model.addIntermediateTensor op.fNY
                ((convTransposeInferred op model).2.getD 0
                  [])).checkIfTensorAlreadyExist op.fNB = true
            · rw [if_neg (not_not_intro h6)]
              by_cases h7 : ((model.addIntermediateTensor op.fNY
                    ((convTransposeInferred op model).2.getD 0
                      [])).getTensorShape op.fNB).length =
                  ((convTransposeInferred op model).2.getD 0 []).length
              · rw [if_neg (not_not_intro h7)]
                refine ⟨iff_of_true rfl
                  ⟨h1, h2, h3, h4, Or.inr ⟨h6, Or.inl h7⟩⟩, ?_⟩
                intro op2 m2 hok
                simp only [Except.ok.injEq, Prod.mk.injEq] at hok
                obtain ⟨-, h2m⟩ := hok
                subst h2m
                exact RModel.checkExists_add_self model op.fNY _
              · rw [if_pos h7]
                by_cases h8 : ((model.addIntermediateTensor op.fNY
                    ((convTransposeInferred op model).2.getD 0
                      [])).getTensorShape op.fNB).length < 1
                · rw [if_pos h8]
                  refine ⟨iff_of_false (by simp [Except.isOk, Except.toBool])
                    (fun hr => (hr.2.2.2.2).elim h5
                      (fun hb => hb.2.elim h7 (fun hbb => hbb.1 h8))), ?_⟩
                  intro op2 m2 hcon
                  simp at hcon
                · rw [if_neg h8]
                  by_cases h9 : ((model.addIntermediateTensor op.fNY
                        ((convTransposeInferred op model).2.getD 0
                          [])).getTensorShape op.fNB).getD 0 0 =
                      ((convTransposeInferred op model).2.getD 0 []).getD 1 0
                  · rw [if_neg (not_not_intro h9)]
                    by_cases h10 : op.fType = "float"
                    · rw [if_neg (not_not_intro h10)]
                      by_cases h11 : model.useSession = true
                      · rw [if_neg (not_not_intro h11)]
                        refine ⟨iff_of_true rfl
                          ⟨h1, h2, h3, h4, Or.inr ⟨h6, Or.inr ⟨h8, h9, h10⟩⟩⟩, ?_⟩
                        intro op2 m2 hok
                        simp only [Except.ok.injEq, Prod.mk.injEq] at hok
                        obtain ⟨-, h2m⟩ := hok
                        subst h2m
                        exact RModel.checkExists_add_mono _ _ _ _
                          (RModel.checkExists_add_self model op.fNY _)
                      · rw [if_pos h11]
                        refine ⟨iff_of_true rfl
                          ⟨h1, h2, h3, h4, Or.inr ⟨h6, Or.inr ⟨h8, h9, h10⟩⟩⟩, ?_⟩
                        intro op2 m2 hok
                        simp only [Except.ok.injEq, Prod.mk.injEq] at hok
                        obtain ⟨-, h2m⟩ := hok
                        subst h2m
                        rw [RModel.checkExists_update]
                        exact RModel.checkExists_add_self model op.fNY _
                    · rw [if_pos h10]
                      refine ⟨iff_of_false (by simp [Except.isOk, Except.toBool])
                        (fun hr => (hr.2.2.2.2).elim h5
                          (fun hb => hb.2.elim h7 (fun hbb => h10 hbb.2.2))), ?_⟩
                      intro op2 m2 hcon
                      simp at hcon
                  · rw [if_pos h9]
                    refine ⟨iff_of_false (by simp [Except.isOk, Except.toBool])
                      (fun hr => (hr.2.2.2.2).elim h5
                        (fun hb => hb.2.elim h7 (fun hbb => h9 hbb.2.1))), ?_⟩
                    intro op2 m2 hcon
                    simp at hcon
            · rw [if_pos h6]
              refine ⟨iff_of_false (by simp [Except.isOk, Except.toBool])
                (fun hr => (hr.2.2.2.2).elim h5 (fun hb => h6 hb.1)), ?_⟩
              intro op2 m2 hcon
              simp at hcon
      · rw [if_pos h3]
        refine ⟨iff_of_false (by simp [Except.isOk, Except.toBool])
          (fun hr => h3 hr.2.2.1), ?_⟩
        intro op2 m2 hcon
        simp at hcon
  · rw [if_pos h1]
    refine ⟨iff_of_false (by simp [Except.isOk, Except.toBool])
      (fun hr => h1 hr.1), ?_⟩
    intro op2 m2 hcon
    simp at hcon

/-- Operator configuration of the C2 counterexample: a group attribute of
two with three input channels, no bias. -/
def c2Op : ROperatorConvTranspose where
  fNX := "x"
  fNW := "w"
  fNB := ""
  fNY := "y"
  fNBroadcastedB := ""
  fAttrAutopad := "NOTSET"
  fAttrDilations := []
  fAttrGroup := 2
  fAttrKernelShape := []
  fAttrOutputPadding := []
  fAttrOutputShape := []
  fAttrPads := []
  fAttrStrides := []
  fShapeX := []
  fShapeW := []
  fShapeB := []
  fShapeY := []
  fDim := 0
  fType := "float"
  fUseSession := false

/-- Model of the C2 counterexample: input tensor of shape `(1,3,4)` (three
input channels) and weight tensor of shape `(3,2,3)`. -/
def c2Model : RModel where
  tensors := [("x", [1, 3, 4]), ("w", [3, 2, 3])]
  useSession := false

/-- Counterexample to C2: the group attribute `2` does not divide the
input channel count `3`, yet `Initialize` completes without reporting any
error. -/
theorem convTransposeInit_group_mismatch_accepted :
    ¬(2 ∣ ((c2Model.getTensorShape "x").getD 1 0)) ∧
      (convTransposeInit c2Op c2Model).isOk = true := by
  decide

/-- C2 as amended: neither `Initialize` nor `ShapeInference` validates the
group attribute; for a bias-free operator, whether `Initialize` succeeds
is entirely independent of the configured group count. -/
theorem convTransposeInit_independent_of_group (op : ROperatorConvTranspose)
    (model : RModel) (g₁ g₂ : Nat) (hB : op.fNB = "") :
    (convTransposeInit { op with fAttrGroup := g₁ } model).isOk =
      (convTransposeInit { op with fAttrGroup := g₂ } model).isOk := by
  simp only [convTransposeInit, shapeInference_fst_fNB, hB, ne_eq,
    eq_self_iff_true, not_true, if_false]
  split_ifs <;> rfl

/-- Witness for the amended C2: the counterexample configuration keeps
succeeding when its group count is replaced by the (dividing) value one. -/
theorem convTransposeInit_independent_of_group_witness :
    (convTransposeInit { c2Op with fAttrGroup := 2 } c2Model).isOk =
      (convTransposeInit { c2Op with fAttrGroup := 1 } c2Model).isOk :=
  convTransposeInit_independent_of_group c2Op c2Model 2 1 rfl

/-- Witness for C5: on the concrete C2 configuration `Initialize`
succeeds, and by the characterization every tensor it returns a model for
has the output tensor registered. -/
theorem convTransposeInit_failure_characterization_witness :
    (convTransposeInit c2Op c2Model).isOk = true ∧
    (∀ op2 m2, convTransposeInit c2Op c2Model = .ok (op2, m2) →
      m2.checkIfTensorAlreadyExist c2Op.fNY = true) := by
  constructor
  · decide
  · exact (convTransposeInit_failure_characterization c2Op c2Model).2

/-- C1: with no explicit pads, no explicit output shape and no output
padding, every derived output spatial extent returned by `ShapeInference`
is `strides[i] * (inputShape[i + 2] - 1) + kernelShape[i]`, where strides
and kernel shape are the attribute values the call resolves (strides
defaulting to one, the kernel shape defaulting to the dilated kernel
size).  The positivity hypothesis keeps every `size_t` subtraction of the
source in range. -/
theorem shapeInference_spatial_extent (op : ROperatorConvTranspose)
    (inputShape weightShape : List Nat)
    (hW : op.fShapeW = weightShape)
    (hrank3 : 3 ≤ inputShape.length) (hrank5 : inputShape.length ≤ 5)
    (hrankW : weightShape.length = inputShape.length)
    (hpos : ∀ i, 2 ≤ i → i < inputShape.length → 1 ≤ inputShape.getD i 0)
    (hPads : op.fAttrPads = [])
    (hOutShape : op.fAttrOutputShape = [])
    (hOutPad : op.fAttrOutputPadding = []) :
    ∀ i < inputShape.length - 2,
      ((shapeInference op [inputShape, weightShape]).2.getD 0 []).getD (i + 2) 0 =
        (shapeInference op [inputShape, weightShape]).1.fAttrStrides.getD i 0 *
          (inputShape.getD (i + 2) 0 - 1) +
        (shapeInference op [inputShape, weightShape]).1.fAttrKernelShape.getD i 0 := by
  intro i hi
  simp only [shapeInference, hOutShape, hOutPad, List.isEmpty_nil, if_true,
    List.getD_cons_zero, List.getD_cons_succ, List.getD]
  simp [List.getElem?_map, List.getElem?_range, hi]

/-- Operator configuration of the concrete 2D instance of C1: input shape
`(1,3,8,8)`, weight shape `(3,2,3,3)`, strides `(1,1)`, everything else
defaulted. -/
def convC1Op : ROperatorConvTranspose where
  fNX := "x"
  fNW := "w"
  fNB := ""
  fNY := "y"
  fNBroadcastedB := ""
  fAttrAutopad := "NOTSET"
  fAttrDilations := []
  fAttrGroup := 0
  fAttrKernelShape := []
  fAttrOutputPadding := []
  fAttrOutputShape := []
  fAttrPads := []
  fAttrStrides := [1, 1]
  fShapeX := [1, 3, 8, 8]
  fShapeW := [3, 2, 3, 3]
  fShapeB := []
  fShapeY := []
  fDim := 2
  fType := "float"
  fUseSession := false

/-- Witness for C1: on input shape `(1,3,8,8)`, weight shape `(3,2,3,3)`
and strides `(1,1)` the derived output shape is `(1,2,10,10)`: each output
spatial size is `1 * (8 - 1) + 3 = 10`. -/
theorem shapeInference_spatial_extent_witness :
    ((shapeInference convC1Op [[1, 3, 8, 8], [3, 2, 3, 3]]).2.getD 0 []).getD 2 0 =
      (shapeInference convC1Op [[1, 3, 8, 8], [3, 2, 3, 3]]).1.fAttrStrides.getD 0 0 *
        (([1, 3, 8, 8] : List Nat).getD 2 0 - 1) +
      (shapeInference convC1Op [[1, 3, 8, 8], [3, 2, 3, 3]]).1.fAttrKernelShape.getD 0 0 ∧
    (shapeInference convC1Op [[1, 3, 8, 8], [3, 2, 3, 3]]).2 = [[1, 2, 10, 10]] :=
  ⟨shapeInference_spatial_extent convC1Op [1, 3, 8, 8] [3, 2, 3, 3] rfl
      (by decide) (by decide) (by decide) (by decide) rfl rfl rfl 0 (by decide),
   by decide⟩

/-- C6: the second entry of the shape returned by `ShapeInference` is
`weightShape[1] * group`, a zero group attribute counting as one. -/
theorem shapeInference_output_channels (op : ROperatorConvTranspose)
    (inputShape weightShape : List Nat) :
    ((shapeInference op [inputShape, weightShape]).2.getD 0 []).getD 1 0 =
      weightShape.getD 1 0 * (if op.fAttrGroup = 0 then 1 else op.fAttrGroup) := by
  simp [shapeInference]

/-- The returned shape list, written through the fields of the operator the
call returns. -/
lemma shapeInference_snd (op : ROperatorConvTranspose) (x w : List Nat) :
    (shapeInference op [x, w]).2 =
      [x.getD 0 0 :: w.getD 1 0 * (shapeInference op [x, w]).1.fAttrGroup ::
        (List.range (x.length - 2)).map
          (fun i => (shapeInference op [x, w]).1.fAttrOutputShape.getD i 0)] := by
  simp [shapeInference]

/-- The group attribute after `ShapeInference`. -/
lemma shapeInference_fst_group (op : ROperatorConvTranspose) (x w : List Nat) :
    (shapeInference op [x, w]).1.fAttrGroup =
      if op.fAttrGroup = 0 then 1 else op.fAttrGroup := by
  simp [shapeInference]

/-- A user-supplied output-shape attribute is left untouched. -/
lemma shapeInference_fst_outputShape_of_nonempty (op : ROperatorConvTranspose)
    (x w : List Nat) (h : ¬op.fAttrOutputShape.isEmpty) :
    (shapeInference op [x, w]).1.fAttrOutputShape = op.fAttrOutputShape := by
  simp [shapeInference, h]

/-- The output-shape attribute can only be empty after the call when there
is no spatial axis at all. -/
lemma shapeInference_fst_outputShape_isEmpty (op : ROperatorConvTranspose)
    (x w : List Nat)
    (h : ((shapeInference op [x, w]).1.fAttrOutputShape).isEmpty) :
    x.length - 2 = 0 := by
  by_cases h0 : op.fAttrOutputShape.isEmpty
  · simp only [shapeInference, h0, if_true] at h
    simpa [List.isEmpty_iff, List.range_eq_nil] using h
  · rw [shapeInference_fst_outputShape_of_nonempty op x w h0] at h
    exact absurd h h0

/-- C7: calling `ShapeInference` a second time with the same input and
weight shapes returns the same output shape list, even though the first
call filled in the defaulted attributes. -/
theorem shapeInference_idempotent (op : ROperatorConvTranspose) (x w : List Nat) :
    (shapeInference (shapeInference op [x, w]).1 [x, w]).2 =
      (shapeInference op [x, w]).2 := by
  rw [shapeInference_snd (shapeInference op [x, w]).1 x w, shapeInference_snd op x w]
  have hg : (shapeInference (shapeInference op [x, w]).1 [x, w]).1.fAttrGroup =
      (shapeInference op [x, w]).1.fAttrGroup := by
    rw [shapeInference_fst_group, shapeInference_fst_group]
    by_cases h : op.fAttrGroup = 0 <;> simp [h]
  rw [hg]
  by_cases hos : ((shapeInference op [x, w]).1.fAttrOutputShape).isEmpty
  · have hd := shapeInference_fst_outputShape_isEmpty op x w hos
    simp [hd]
  · rw [shapeInference_fst_outputShape_of_nonempty _ x w hos]

/-- Modelled from the spec: `SP`, the indentation constant of the SOFIE
code emitters (defined in the `ROperator` base class, which is not among
the repository files). -/
def SP : String := "   "

/-- The diagnostic `Generate` prints to `std::cout` when the resolved
padding of some spatial axis is asymmetric. -/
def asymWarn : String :=
  "TMVA SOFIE Operator Conv:  asymmetric padding not supported. Assume an average padding "

/-- The padding adjustment `Generate` performs before emitting the
`Im2col` call: for each spatial dimensionality, when some axis has a
before-pad different from its after-pad, a diagnostic is recorded and the
before-pads are replaced by the integer average of the two sides; for one
spatial dimension the source additionally writes `fAttrPads[1] = 0` and
`fAttrStrides[1] = 1` unconditionally.  Returns the new pads, the new
strides and the recorded diagnostics. -/
def convTransposeAdjustedPads (op0 : ROperatorConvTranspose) :
    List Nat × List Nat × List String :=
  let fDim := op0.fDim
  let pads0 := op0.fAttrPads
  if fDim = 1 then
    let p := if pads0.getD 0 0 ≠ pads0.getD 1 0 then
        pads0.set 0 ((pads0.getD 0 0 + pads0.getD 1 0) / 2) else pads0
    let w := if pads0.getD 0 0 ≠ pads0.getD 1 0 then [asymWarn] else []
    (p.set 1 0, op0.fAttrStrides.set 1 1, w)
  else if fDim = 2 then
    if pads0.getD 0 0 ≠ pads0.getD 2 0 ∨ pads0.getD 1 0 ≠ pads0.getD 3 0 then
      ((pads0.set 0 ((pads0.getD 0 0 + pads0.getD 2 0) / 2)).set 1
          ((pads0.getD 1 0 + pads0.getD 3 0) / 2),
       op0.fAttrStrides, [asymWarn])
    else (pads0, op0.fAttrStrides, [])
  else if fDim = 3 then
    if pads0.getD 0 0 ≠ pads0.getD 3 0 ∨ pads0.getD 1 0 ≠ pads0.getD 4 0 ∨
        pads0.getD 2 0 ≠ pads0.getD 5 0 then
      (((pads0.set 0 ((pads0.getD 0 0 + pads0.getD 3 0) / 2)).set 1
          ((pads0.getD 1 0 + pads0.getD 4 0) / 2)).set 2
          ((pads0.getD 2 0 + pads0.getD 5 0) / 2),
       op0.fAttrStrides, [asymWarn])
    else (pads0, op0.fAttrStrides, [])
  else (pads0, op0.fAttrStrides, [])

/-- Embedding of `ROperator_ConvTranspose<T>::Generate`.  The emitted
source text is accumulated into a string exactly as the `out <<` chain of
the source writes it (braces and quotes of the emitted C++ are escaped);
the diagnostic messages printed to `std::cout` are collected into a list;
the mutation of `fAttrPads` (and, for one spatial dimension,
`fAttrStrides`) that the source performs while emitting is returned in the
operator.  The single `throw` of the source becomes `Except.error`. -/
def generate (op0 : ROperatorConvTranspose) (opNameArg : String) :
    Except String (String × List String × ROperatorConvTranspose) :=
  let opName := "op_" ++ opNameArg
  if op0.fShapeX.isEmpty ∨ op0.fShapeW.isEmpty ∨
      (op0.fNB ≠ "" ∧ op0.fShapeB.isEmpty) ∨ op0.fShapeY.isEmpty then
    .error "TMVA SOFIE Conv Op called to Generate without being initialized first"
  else
    let fDim := op0.fDim
    let bsize := op0.fShapeX.getD 0 0
    let kDepth := if fDim > 2 then op0.fShapeW.getD 2 0 else 1
    let kHeight := if fDim > 1 then op0.fShapeW.getD fDim 0 else 1
    let kWidth := op0.fShapeW.getD (fDim + 1) 0
    let iDepth := if fDim > 2 then op0.fShapeX.getD 2 0 else 1
    let iHeight := if fDim > 1 then op0.fShapeX.getD fDim 0 else 1
    let iWidth := op0.fShapeX.getD (fDim + 1) 0
    let oDepth := if fDim > 2 then op0.fShapeY.getD 2 0 else 1
    let oHeight := if fDim > 1 then op0.fShapeY.getD fDim 0 else 1
    let oWidth := op0.fShapeY.getD (fDim + 1) 0
    let header := "\n//----  operator ConvTranspose " ++ opName ++ "\n"
    let convKernelDecl :=
      if op0.fUseSession then
        SP ++ op0.fType ++ " * " ++ opName ++ "_f = fVec_" ++ opName ++ "_f.data();\n"
      else
        let kernelSize := op0.fAttrKernelShape.getD 0 0 *
          (if fDim > 1 then op0.fAttrKernelShape.getD 1 0 else 1)
        SP ++ op0.fType ++ " " ++ opName ++ "_f[" ++
          toString (op0.fShapeW.getD 0 0 * op0.fShapeW.getD 1 0 * kernelSize) ++
          "] = \x7b0\x7d;\n"
    let idx := if fDim > 2 then fDim - 3 else 2
    let ihx := if fDim > 1 then fDim - 2 else 1
    let iwx := fDim - 1
    let wstrideDil := op0.fAttrDilations.getD iwx 0
    let hstride := kWidth
    let hstrideDil := op0.fAttrKernelShape.getD iwx 0 * op0.fAttrDilations.getD ihx 0
    let dstride := kHeight * kWidth
    let dstrideDil := op0.fAttrKernelShape.getD iwx 0 *
      (if fDim > 1 then op0.fAttrKernelShape.getD ihx 0 else 1) *
      (if fDim > 2 then op0.fAttrDilations.getD idx 0 else 1)
    let icstride := kHeight * kWidth * kDepth
    let icstrideDil :=
      ((List.range fDim).map (fun i => op0.fAttrKernelShape.getD i 0)).foldl
        (fun a b => a * b) 1
    let ocstride := op0.fShapeW.getD 1 0 * icstride
    let ocstrideDil := op0.fShapeW.getD 1 0 * icstrideDil
    let vecLoop :=
      SP ++ "for (std::size_t oc = 0; oc < " ++ toString (op0.fShapeW.getD 0 0) ++
        "; oc++) \x7b\n" ++
      SP ++ SP ++ "for (std::size_t ic = 0; ic < " ++ toString (op0.fShapeW.getD 1 0) ++
        "; ic++) \x7b\n" ++
      (if fDim > 2 then
        SP ++ SP ++ SP ++ "for (std::size_t kd = 0; kd < " ++ toString kDepth ++
          "; kd++) \x7b\n" else "") ++
      (if fDim > 1 then
        SP ++ SP ++ SP ++ "for (std::size_t kh = 0; kh < " ++ toString kHeight ++
          "; kh++) \x7b\n" else "") ++
      SP ++ SP ++ SP ++ SP ++ "for (std::size_t kw = 0; kw < " ++ toString kWidth ++
        "; kw++) \x7b\n" ++
      SP ++ SP ++ SP ++ SP ++ SP ++ opName ++ "_f[oc * " ++ toString ocstrideDil ++
        " + ic * " ++ toString icstrideDil ++
      (if fDim > 2 then " + kd * " ++ toString dstrideDil else "") ++
      (if fDim > 1 then " + kh * " ++ toString hstrideDil else "") ++
      " + kw * " ++ toString wstrideDil ++ "  ] = tensor_" ++ op0.fNW ++ "[oc * " ++
        toString ocstride ++ " + ic * " ++ toString icstride ++
      (if fDim > 2 then " + kd * " ++ toString dstride else "") ++
      (if fDim > 1 then " + kh * " ++ toString hstride else "") ++
      " + kw ];\n" ++
      SP ++ SP ++ SP ++ SP ++ "\x7d\n" ++
      (if fDim > 1 then SP ++ SP ++ SP ++ "\x7d\n" else "") ++
      (if fDim > 2 then SP ++ SP ++ SP ++ "\x7d\n" else "") ++
      SP ++ SP ++ "\x7d\n" ++
      SP ++ "\x7d\n"
    let gemmSetup :=
      SP ++ "char " ++ opName ++ "_transA = \x27N\x27;\n" ++
      SP ++ "char " ++ opName ++ "_transB = \x27N\x27;\n" ++
      SP ++ "int " ++ opName ++ "_m = " ++ toString (oHeight * oWidth * oDepth) ++ ";\n" ++
      SP ++ "int " ++ opName ++ "_n = " ++ toString (op0.fShapeW.getD 1 0) ++ ";\n" ++
      SP ++ "int " ++ opName ++ "_k = " ++ toString icstrideDil ++ ";\n" ++
      SP ++ "float " ++ opName ++ "_alpha = 1.0;\n" ++
      SP ++ "float " ++ opName ++ "_beta = 0.0;\n"
    let xcolDecl :=
      if op0.fUseSession then
        SP ++ op0.fType ++ " * " ++ opName ++ "_xcol = fVec_" ++ opName ++ "_xcol.data();\n"
      else
        SP ++ op0.fType ++ " " ++ opName ++ "_xcol[" ++
          toString (icstrideDil * oDepth * oHeight * oWidth) ++ "] = \x7b0\x7d;\n"
    let batchLoopHead := SP ++ "for (size_t n = 0; n < " ++ toString bsize ++ "; n++) \x7b\n"
    let adjusted := convTransposeAdjustedPads op0
    let pads := adjusted.1
    let strides := adjusted.2.1
    let warns := adjusted.2.2
    let im2colCall :=
      if fDim < 3 then
        SP ++ SP ++ "TMVA::Experimental::SOFIE::UTILITY::Im2col<float>(tensor_" ++
          op0.fNX ++ " + x_offset," ++ toString (op0.fShapeX.getD 1 0) ++ "," ++
          toString iHeight ++ "," ++ toString iWidth ++ "," ++
        (if fDim = 1 then
          "1, " ++ toString (op0.fAttrKernelShape.getD 0 0) ++ ",0," ++
            toString (pads.getD 0 0) ++ ",1," ++ toString (strides.getD 0 0) ++ ",1," ++
            toString (op0.fAttrDilations.getD 0 0)
        else
          toString (op0.fAttrKernelShape.getD 0 0) ++ "," ++
            toString (op0.fAttrKernelShape.getD 1 0) ++ "," ++
            toString (pads.getD 0 0) ++ "," ++ toString (pads.getD 1 0) ++ "," ++
            toString (strides.getD 0 0) ++ "," ++ toString (strides.getD 1 0) ++ "," ++
            toString (op0.fAttrDilations.getD 0 0) ++ "," ++
            toString (op0.fAttrDilations.getD 1 0)) ++
        "," ++ opName ++ "_xcol);\n\n "
      else
        SP ++ SP ++ "TMVA::Experimental::SOFIE::UTILITY::Im2col_3d<float>(tensor_" ++
          op0.fNX ++ " + x_offset," ++ toString (op0.fShapeX.getD 1 0) ++ "," ++
          toString iDepth ++ "," ++ toString iHeight ++ "," ++ toString iWidth ++ "," ++
          toString (op0.fAttrKernelShape.getD 0 0) ++ "," ++
          toString (op0.fAttrKernelShape.getD 1 0) ++ "," ++
          toString (op0.fAttrKernelShape.getD 2 0) ++ "," ++
          toString (pads.getD 0 0) ++ "," ++ toString (pads.getD 1 0) ++ "," ++
          toString (pads.getD 2 0) ++ "," ++
          toString (strides.getD 0 0) ++ "," ++ toString (strides.getD 1 0) ++ "," ++
          toString (strides.getD 2 0) ++ "," ++
          toString (op0.fAttrDilations.getD 0 0) ++ "," ++
          toString (op0.fAttrDilations.getD 1 0) ++ "," ++
          toString (op0.fAttrDilations.getD 2 0) ++ "," ++ opName ++ "_xcol);\n\n "
    let convSection :=
      if op0.fAttrGroup = 1 then
        SP ++ SP ++ "size_t x_offset = n * " ++
          toString (op0.fShapeX.getD 1 0 * iDepth * iHeight * iWidth) ++ ";\n" ++
        SP ++ SP ++ "size_t out_offset = n * " ++
          toString (op0.fShapeY.getD 1 0 * oDepth * oHeight * oWidth) ++ ";\n" ++
        im2colCall ++
        SP ++ SP ++ "BLAS::sgemm_(&" ++ opName ++ "_transA, &" ++ opName ++
          "_transB, &" ++ opName ++ "_m, &" ++ opName ++ "_n, &" ++ opName ++
          "_k, &" ++ opName ++ "_alpha, " ++ opName ++ "_xcol, &" ++ opName ++
          "_m,\n" ++
        SP ++ SP ++ SP ++ opName ++ "_f, &" ++ opName ++ "_k, &" ++ opName ++
          "_beta, tensor_" ++ op0.fNY ++ " + out_offset, &" ++ opName ++ "_m);\n"
      else
        SP ++ SP ++ "for (size_t g = 0; g < " ++ toString op0.fAttrGroup ++
          "; g++) \x7b\n" ++
        SP ++ SP ++ "size_t x_offset = n * " ++
          toString (op0.fShapeX.getD 1 0 * iHeight * iWidth) ++ " + g * " ++
          toString (op0.fShapeX.getD 1 0 * iHeight * iWidth / op0.fAttrGroup) ++
          ";\n " ++
        SP ++ SP ++ "size_t out_offset = n * " ++
          toString (op0.fShapeY.getD 1 0 * oHeight * oWidth) ++ " + g * " ++
          toString (op0.fShapeY.getD 1 0 * oHeight * oWidth / op0.fAttrGroup) ++
          ";\n " ++
        im2colCall ++
        SP ++ SP ++ SP ++ "size_t offset_f = g * " ++
          toString (op0.fShapeW.getD 0 0 * op0.fShapeW.getD 1 0 * icstrideDil /
            op0.fAttrGroup) ++ ";\n" ++
        SP ++ SP ++ "BLAS::sgemm_(&" ++ opName ++ "_transA, &" ++ opName ++
          "_transB, &" ++ opName ++ "_m, &" ++ opName ++ "_n, &" ++ opName ++
          "_k, &" ++ opName ++ "_alpha, " ++ opName ++ "_xcol, &" ++ opName ++
          "_m,\n" ++
        SP ++ SP ++ SP ++ opName ++ "_f + offset_f, &" ++ opName ++ "_k, &" ++
          opName ++ "_beta, tensor_" ++ op0.fNY ++ " + out_offset" ++ ", &" ++
          opName ++ "_m);\n" ++
        SP ++ SP ++ "\x7d\n"
    let batchLoopEnd := SP ++ "\x7d\n"
    let biasSection :=
      if op0.fNBroadcastedB ≠ "" then
        SP ++ "int " ++ opName ++ "_size = " ++
          toString (op0.fShapeY.getD 0 0 * op0.fShapeY.getD 1 0 * oDepth * oHeight *
            oWidth) ++ ";\n" ++
        SP ++ "float " ++ opName ++ "_gamma = 1.0;\n" ++
        SP ++ "int " ++ opName ++ "_incx = 1;\n" ++
        SP ++ "int " ++ opName ++ "_incy = 1;\n" ++
        SP ++ "BLAS::saxpy_(&" ++ opName ++ "_size, &" ++ opName ++ "_gamma, tensor_" ++
          op0.fNBroadcastedB ++ ", &" ++ opName ++ "_incx, tensor_" ++ op0.fNY ++
          ", &" ++ opName ++ "_incy);\n"
      else ""
    .ok (header ++ convKernelDecl ++ vecLoop ++ gemmSetup ++ xcolDecl ++
          batchLoopHead ++ convSection ++ batchLoopEnd ++ biasSection,
         warns,
         { op0 with fAttrPads := pads, fAttrStrides := strides })

/-- Reading back the element just written by `List.set`. -/
lemma getD_set_self (l : List Nat) (i a : Nat) (h : i < l.length) :
    (l.set i a).getD i 0 = a := by
  simp [List.getD_eq_getElem?_getD, List.getElem?_set_self, h]

/-- `List.set` leaves every other position unchanged. -/
lemma getD_set_ne (l : List Nat) (i j a : Nat) (h : i ≠ j) :
    (l.set i a).getD j 0 = l.getD j 0 := by
  simp [List.getD_eq_getElem?_getD, List.getElem?_set_ne h]

/-- When some spatial axis has asymmetric resolved padding, the adjustment
step of `Generate` records exactly one diagnostic and replaces every
before-pad by the integer average of its two sides. -/
lemma convTransposeAdjustedPads_spec (op : ROperatorConvTranspose)
    (hd1 : 1 ≤ op.fDim) (hd3 : op.fDim ≤ 3)
    (hlen : op.fAttrPads.length = 2 * op.fDim)
    (hasym : ∃ i, i < op.fDim ∧
      op.fAttrPads.getD i 0 ≠ op.fAttrPads.getD (i + op.fDim) 0) :
    (convTransposeAdjustedPads op).2.2 = [asymWarn] ∧
    ∀ i, i < op.fDim → (convTransposeAdjustedPads op).1.getD i 0 =
      (op.fAttrPads.getD i 0 + op.fAttrPads.getD (i + op.fDim) 0) / 2 := by
  obtain ⟨j, hj, hne⟩ := hasym
  rcases (by omega : op.fDim = 1 ∨ op.fDim = 2 ∨ op.fDim = 3) with hd | hd | hd
  · have hj0 : j = 0 := by omega
    subst hj0
    rw [hd] at hne hlen
    simp only [Nat.zero_add] at hne
    unfold convTransposeAdjustedPads
    rw [hd]
    simp only [eq_self_iff_true, if_true, if_pos hne]
    refine ⟨trivial, ?_⟩
    intro i hi
    interval_cases i
    rw [getD_set_ne _ 1 0 _ (by omega), getD_set_self _ 0 _ (by omega)]
  · rw [hd] at hne hlen
    have hcond : op.fAttrPads.getD 0 0 ≠ op.fAttrPads.getD 2 0 ∨
        op.fAttrPads.getD 1 0 ≠ op.fAttrPads.getD 3 0 := by
      have hj01 : j = 0 ∨ j = 1 := by omega
      rcases hj01 with h0 | h0 <;> subst h0
      · exact Or.inl (by simpa using hne)
      · exact Or.inr (by simpa using hne)
    unfold convTransposeAdjustedPads
    rw [hd]
    simp only [show (2 : Nat) = 1 ↔ False by decide, if_false, eq_self_iff_true,
      if_true, if_pos hcond]
    refine ⟨trivial, ?_⟩
    intro i hi
    interval_cases i
    · rw [getD_set_ne _ 1 0 _ (by omega), getD_set_self _ 0 _ (by omega)]
    · rw [getD_set_self _ 1 _ (by simp only [List.length_set]; omega)]
  · rw [hd] at hne hlen
    have hcond : op.fAttrPads.getD 0 0 ≠ op.fAttrPads.getD 3 0 ∨
        op.fAttrPads.getD 1 0 ≠ op.fAttrPads.getD 4 0 ∨
        op.fAttrPads.getD 2 0 ≠ op.fAttrPads.getD 5 0 := by
      have hj012 : j = 0 ∨ j = 1 ∨ j = 2 := by omega
      rcases hj012 with h0 | h0 | h0 <;> subst h0
      · exact Or.inl (by simpa using hne)
      · exact Or.inr (Or.inl (by simpa using hne))
      · exact Or.inr (Or.inr (by simpa using hne))
    unfold convTransposeAdjustedPads
    rw [hd]
    simp only [show (3 : Nat) = 1 ↔ False by decide,
      show (3 : Nat) = 2 ↔ False by decide, if_false, eq_self_iff_true,
      if_true, if_pos hcond]
    refine ⟨trivial, ?_⟩
    intro i hi
    interval_cases i
    · rw [getD_set_ne _ 2 0 _ (by omega), getD_set_ne _ 1 0 _ (by omega),
        getD_set_self _ 0 _ (by omega)]
    · rw [getD_set_ne _ 2 1 _ (by omega),
        getD_set_self _ 1 _ (by simp only [List.length_set]; omega)]
    · rw [getD_set_self _ 2 _ (by simp only [List.length_set]; omega)]

/-- C3: on an initialized operator whose resolved padding is asymmetric on
some spatial axis, `Generate` does not fail: it returns generated code
(a nonempty string), records exactly the asymmetric-padding diagnostic,
and continues with the before-pad of every axis replaced by the integer
average of the two sides. -/
theorem generate_averages_asymmetric_padding (op : ROperatorConvTranspose)
    (nm : String)
    (hX : ¬op.fShapeX.isEmpty = true) (hW : ¬op.fShapeW.isEmpty = true)
    (hY : ¬op.fShapeY.isEmpty = true)
    (hB : op.fNB = "" ∨ ¬op.fShapeB.isEmpty = true)
    (hd1 : 1 ≤ op.fDim) (hd3 : op.fDim ≤ 3)
    (hlen : op.fAttrPads.length = 2 * op.fDim)
    (hasym : ∃ i, i < op.fDim ∧
      op.fAttrPads.getD i 0 ≠ op.fAttrPads.getD (i + op.fDim) 0) :
    ∃ code warnList op2, generate op nm = .ok (code, warnList, op2) ∧
      warnList = [asymWarn] ∧ 0 < code.length ∧
      ∀ i, i < op.fDim → op2.fAttrPads.getD i 0 =
        (op.fAttrPads.getD i 0 + op.fAttrPads.getD (i + op.fDim) 0) / 2 := by
  have hguard : ¬(op.fShapeX.isEmpty = true ∨ op.fShapeW.isEmpty = true ∨
      (op.fNB ≠ "" ∧ op.fShapeB.isEmpty = true) ∨ op.fShapeY.isEmpty = true) := by
    rintro (h | h | ⟨hnb, hb⟩ | h)
    · exact hX h
    · exact hW h
    · rcases hB with he | hne
      · exact hnb he
      · exact hne hb
    · exact hY h
  obtain ⟨hwarn, hpads⟩ := convTransposeAdjustedPads_spec op hd1 hd3 hlen hasym
  unfold generate
  rw [if_neg hguard]
  refine ⟨_, _, _, rfl, hwarn, ?_, hpads⟩
  simp only [String.length_append]
  have h0 : 0 < ("\n//----  operator ConvTranspose " : String).length := by decide
  omega

/-- Operator configuration of the C3 witness: a fully initialized 2D
transposed convolution whose resolved padding `(1,0,0,0)` is asymmetric on
the first spatial axis. -/
def c3Op : ROperatorConvTranspose where
  fNX := "x"
  fNW := "w"
  fNB := ""
  fNY := "y"
  fNBroadcastedB := ""
  fAttrAutopad := "NOTSET"
  fAttrDilations := [1, 1]
  fAttrGroup := 1
  fAttrKernelShape := [3, 3]
  fAttrOutputPadding := [0, 0]
  fAttrOutputShape := [10, 10]
  fAttrPads := [1, 0, 0, 0]
  fAttrStrides := [1, 1]
  fShapeX := [1, 3, 8, 8]
  fShapeW := [3, 2, 3, 3]
  fShapeB := []
  fShapeY := [1, 2, 10, 10]
  fDim := 2
  fType := "float"
  fUseSession := false

/-- Witness for C3: on the concrete asymmetric configuration `Generate`
succeeds, warns once, and averages the before-pads. -/
theorem generate_averages_asymmetric_padding_witness :
    ∃ code warnList op2, generate c3Op "1" = .ok (code, warnList, op2) ∧
      warnList = [asymWarn] ∧ 0 < code.length ∧
      ∀ i, i < c3Op.fDim → op2.fAttrPads.getD i 0 =
        (c3Op.fAttrPads.getD i 0 + c3Op.fAttrPads.getD (i + c3Op.fDim) 0) / 2 :=
  generate_averages_asymmetric_padding c3Op "1" (by decide) (by decide) (by decide)
    (Or.inl rfl) (by decide) (by decide) (by decide) ⟨0, by decide, by decide⟩

/-- State of a `RooJohnson` PDF: the mass observable with its allowed
range, the four parameters and the mass threshold, all modelled as real
numbers. -/
structure RooJohnson where
  mass : ℝ
  mu : ℝ
  lambda : ℝ
  gamma : ℝ
  delta : ℝ
  massThreshold : ℝ
  massMin : ℝ
  massMax : ℝ

/-- Embedding of `RooJohnson::evaluate`: zero strictly below the mass
threshold, otherwise the (unnormalised) Johnson density;
`TMath::TwoPi()` is `2π` and `asinh` is `Real.arsinh`. -/
noncomputable def RooJohnson.evaluate (s : RooJohnson) : ℝ :=
  if s.mass < s.massThreshold then 0
  else
    let arg := (s.mass - s.mu) / s.lambda
    let expo := s.gamma + s.delta * Real.arsinh arg
    s.delta / Real.sqrt (2 * Real.pi) / (s.lambda * Real.sqrt (1 + arg * arg)) *
      Real.exp (-0.5 * expo * expo)

/-- C4: with positive `lambda` and `delta`, `evaluate` is non-negative at
every mass value, and exactly zero strictly below the mass threshold. -/
theorem evaluate_nonneg_and_zero_below_threshold (s : RooJohnson)
    (hl : 0 < s.lambda) (hd : 0 < s.delta) :
    0 ≤ s.evaluate ∧ (s.mass < s.massThreshold → s.evaluate = 0) := by
  constructor
  · unfold RooJohnson.evaluate
    split_ifs with h
    · exact le_refl 0
    · have harg : (0 : ℝ) < 1 + (s.mass - s.mu) / s.lambda * ((s.mass - s.mu) / s.lambda) := by
        nlinarith [sq_nonneg ((s.mass - s.mu) / s.lambda)]
      positivity
  · intro h
    unfold RooJohnson.evaluate
    rw [if_pos h]

/-- Witness for C4: the unit Johnson PDF (all parameters zero except
`lambda = delta = 1`, threshold zero) is non-negative at mass `-1`, and
being below the threshold evaluates to exactly zero there. -/
theorem evaluate_nonneg_and_zero_below_threshold_witness :
    (0 ≤ RooJohnson.evaluate ⟨-1, 0, 1, 0, 1, 0, -10, 10⟩ ∧
      ((-1 : ℝ) < 0 → RooJohnson.evaluate ⟨-1, 0, 1, 0, 1, 0, -10, 10⟩ = 0)) ∧
    RooJohnson.evaluate ⟨-1, 0, 1, 0, 1, 0, -10, 10⟩ = 0 :=
  ⟨evaluate_nonneg_and_zero_below_threshold ⟨-1, 0, 1, 0, 1, 0, -10, 10⟩
      one_pos one_pos,
   (evaluate_nonneg_and_zero_below_threshold ⟨-1, 0, 1, 0, 1, 0, -10, 10⟩
      one_pos one_pos).2 (by norm_num)⟩

/-- Modelled from the spec: the integral codes `RooJohnson` declares in
its header (not among the repository files): `kMass = 1`, `kMean = 2`,
`kLambda = 3`, `kGamma = 4`, `kDelta = 5`, matching the order
`getAnalyticalIntegral` tests the variables in. -/
def kMass : Int := 1

/-- Integral code for the location parameter. -/
def kMean : Int := 2

/-- Integral code for the width parameter. -/
def kLambda : Int := 3

/-- Integral code for the first shape parameter. -/
def kGamma : Int := 4

/-- Integral code for the second shape parameter. -/
def kDelta : Int := 5

/-- Embedding of `RooJohnson::getAnalyticalIntegral`: the first variable
matched among mass, mu, lambda, gamma, delta determines the code;
otherwise `0` (no analytic integral).  `matchArgs` is modelled by the
boolean telling whether the corresponding variable is requested. -/
def getAnalyticalIntegral (matchMass matchMu matchLambda matchGamma matchDelta :
    Bool) : Int :=
  if matchMass then kMass
  else if matchMu then kMean
  else if matchLambda then kLambda
  else if matchGamma then kGamma
  else if matchDelta then kDelta
  else 0

/-- Embedding of `RooJohnson::getGenerator`: direct generation is
advertised (code `1`) exactly when the mass observable is requested. -/
def getGenerator (matchMass : Bool) : Int :=
  if matchMass then 1 else 0

/-- Range limits of the variables, as selected by the range name passed to
`analyticalIntegral`. -/
structure RooJohnsonRanges where
  massMin : ℝ
  massMax : ℝ
  muMin : ℝ
  muMax : ℝ
  lambdaMin : ℝ
  lambdaMax : ℝ
  gammaMin : ℝ
  gammaMax : ℝ
  deltaMin : ℝ
  deltaMax : ℝ

/-- The complementary error function, the mathematical function computed
by `std::erfc`. -/
noncomputable def erfc (x : ℝ) : ℝ :=
  (2 / Real.sqrt Real.pi) * ∫ t in Set.Ioi x, Real.exp (-t ^ 2)

/-- Embedding of `RooJohnson::analyticalIntegral`: the scaled and shifted
range limits are mapped through the Gaussian CDF written with `erfc` in
the upper tail; the `assert(false)` branch for a code the operator never
advertises is modelled as `none`. -/
noncomputable def analyticalIntegral (s : RooJohnson) (code : Int)
    (r : RooJohnsonRanges) : Option ℝ :=
  let globalNorm : ℝ := 1
  let mm : Option (ℝ × ℝ) :=
    if kMass ≤ code ∧ code ≤ kLambda then
      let argMinMax : ℝ × ℝ :=
        if code = kMass then
          ((r.massMin - s.mu) / s.lambda, (r.massMax - s.mu) / s.lambda)
        else if code = kMean then
          ((s.mass - r.muMin) / s.lambda, (s.mass - r.muMax) / s.lambda)
        else
          ((s.mass - s.mu) / r.lambdaMin, (s.mass - s.mu) / r.lambdaMax)
      some (s.gamma + s.delta * Real.arsinh argMinMax.1,
            s.gamma + s.delta * Real.arsinh argMinMax.2)
    else if code = kGamma then
      let arg := (s.mass - s.mu) / s.lambda
      some (r.gammaMin + s.delta * Real.arsinh arg,
            r.gammaMax + s.delta * Real.arsinh arg)
    else if code = kDelta then
      let arg := (s.mass - s.mu) / s.lambda
      some (s.gamma + r.deltaMin * Real.arsinh arg,
            s.gamma + r.deltaMax * Real.arsinh arg)
    else none
  match mm with
  | none => none
  | some (mn, mx) =>
    let ecmin := erfc |mn / Real.sqrt 2|
    let ecmax := erfc |mx / Real.sqrt 2|
    let result := 0.5 *
      (if mn * mx < 0 then 2 - (ecmin + ecmax)
       else if mx ≤ 0 then ecmax - ecmin else ecmin - ecmax)
    some (globalNorm * (if result ≠ 0 then result else 1e-300))

/-- Embedding of the rejection loop of `RooJohnson::generateEvent` for the
mass observable: each candidate Gaussian draw is transformed through the
inverse of the Johnson map and accepted when it lies within the mass
range and above the threshold; `none` when the supplied draws run out. -/
noncomputable def generateEventLoop (s : RooJohnson) :
    List ℝ → Option RooJohnson
  | [] => none
  | gauss :: rest =>
    let mass := s.lambda * Real.sinh ((gauss - s.gamma) / s.delta) + s.mu
    if s.massMin ≤ mass ∧ mass ≤ s.massMax ∧ s.massThreshold ≤ mass then
      some { s with mass := mass }
    else generateEventLoop s rest

/-- Embedding of `RooJohnson::generateEvent`: code `1` samples the mass
observable by the rejection loop; every other code throws
`std::logic_error`. -/
noncomputable def generateEvent (s : RooJohnson) (code : Int)
    (gaussians : List ℝ) : Except String (Option RooJohnson) :=
  if code = 1 then .ok (generateEventLoop s gaussians)
  else .error "Generation in other variables not yet implemented."

/-- C9: the only explicit error path is direct sampling with a code other
than `1`; `1` is the only code `getGenerator` advertises; and
`analyticalIntegral` yields a value for every code that
`getAnalyticalIntegral` can hand out. -/
theorem generateEvent_only_error_path (s : RooJohnson) (code : Int)
    (gaussians : List ℝ) (h : code ≠ 1) :
    generateEvent s code gaussians =
      .error "Generation in other variables not yet implemented." ∧
    (∀ m : Bool, getGenerator m = 1 ↔ m = true) ∧
    (∀ c : Int, 1 ≤ c → c ≤ 5 → ∀ r : RooJohnsonRanges,
      (analyticalIntegral s c r).isSome = true) := by
  refine ⟨?_, ?_, ?_⟩
  · unfold generateEvent
    rw [if_neg h]
  · intro m
    cases m <;> simp [getGenerator]
  · intro c hc1 hc5 r
    interval_cases c <;>
      simp [analyticalIntegral, kMass, kMean, kLambda, kGamma, kDelta]

/-- Witness for C9: at code `2` the generator throws, `getGenerator`
advertises only the mass code, and every advertised integral code yields
a value. -/
theorem generateEvent_only_error_path_witness :
    generateEvent ⟨0, 0, 1, 0, 1, 0, -1, 1⟩ 2 [] =
      .error "Generation in other variables not yet implemented." ∧
    (∀ m : Bool, getGenerator m = 1 ↔ m = true) ∧
    (∀ c : Int, 1 ≤ c → c ≤ 5 → ∀ r : RooJohnsonRanges,
      (analyticalIntegral ⟨0, 0, 1, 0, 1, 0, -1, 1⟩ c r).isSome = true) :=
  generateEvent_only_error_path ⟨0, 0, 1, 0, 1, 0, -1, 1⟩ 2 [] (by decide)

/-- Any state the rejection loop returns has its mass inside the allowed
range and above the threshold, and every other member unchanged. -/
lemma generateEventLoop_spec (s : RooJohnson) (gaussians : List ℝ)
    (t : RooJohnson) (h : generateEventLoop s gaussians = some t) :
    s.massMin ≤ t.mass ∧ t.mass ≤ s.massMax ∧ s.massThreshold ≤ t.mass ∧
    t.mu = s.mu ∧ t.lambda = s.lambda ∧ t.gamma = s.gamma ∧
    t.delta = s.delta ∧ t.massThreshold = s.massThreshold ∧
    t.massMin = s.massMin ∧ t.massMax = s.massMax := by
  induction gaussians with
  | nil => exact absurd h (by simp [generateEventLoop])
  | cons g rest ih =>
    rw [generateEventLoop] at h
    split_ifs at h with hcond
    · obtain ⟨h1, h2, h3⟩ := hcond
      cases h
      exact ⟨h1, h2, h3, rfl, rfl, rfl, rfl, rfl, rfl, rfl⟩
    · exact ih h

/-- C10: whenever `generateEvent` with code `1` returns a state, the mass
it assigned lies in `[massMin, massMax]` and at or above the threshold,
and no member other than the mass observable has been modified. -/
theorem generateEvent_mass_in_range (s : RooJohnson) (gaussians : List ℝ)
    (t : RooJohnson) (h : generateEvent s 1 gaussians = .ok (some t)) :
    s.massMin ≤ t.mass ∧ t.mass ≤ s.massMax ∧ s.massThreshold ≤ t.mass ∧
    t.mu = s.mu ∧ t.lambda = s.lambda ∧ t.gamma = s.gamma ∧
    t.delta = s.delta ∧ t.massThreshold = s.massThreshold ∧
    t.massMin = s.massMin ∧ t.massMax = s.massMax := by
  have hloop : generateEventLoop s gaussians = some t := by
    unfold generateEvent at h
    rw [if_pos rfl] at h
    exact Except.ok.inj h
  exact generateEventLoop_spec s gaussians t hloop

/-- The state of the C10 witness before sampling. -/
noncomputable def c10Start : RooJohnson :=
  ⟨0, 0, 1, 0, 1, -1, -1, 1⟩

/-- The state of the C10 witness after the accepted draw `0`: only the
mass has changed, to the transformed value `sinh 0 = 0`. -/
noncomputable def c10After : RooJohnson :=
  { c10Start with mass := 0 }

/-- The draw `0` is accepted immediately by the rejection loop. -/
lemma c10_generate_eq : generateEvent c10Start 1 [0] = .ok (some c10After) := by
  unfold generateEvent generateEventLoop
  rw [if_pos rfl]
  simp only []
  have hc : c10Start.massMin ≤ c10Start.lambda *
        Real.sinh ((0 - c10Start.gamma) / c10Start.delta) + c10Start.mu ∧
      c10Start.lambda * Real.sinh ((0 - c10Start.gamma) / c10Start.delta) +
        c10Start.mu ≤ c10Start.massMax ∧
      c10Start.massThreshold ≤ c10Start.lambda *
        Real.sinh ((0 - c10Start.gamma) / c10Start.delta) + c10Start.mu := by
    refine ⟨?_, ?_, ?_⟩ <;> simp [c10Start, Real.sinh_zero]
  rw [if_pos hc]
  simp [c10Start, c10After, Real.sinh_zero]

/-- Witness for C10: the state returned for the accepted draw `0`
satisfies all the range and frame conditions. -/
theorem generateEvent_mass_in_range_witness :
    c10Start.massMin ≤ c10After.mass ∧ c10After.mass ≤ c10Start.massMax ∧
    c10Start.massThreshold ≤ c10After.mass ∧
    c10After.mu = c10Start.mu ∧ c10After.lambda = c10Start.lambda ∧
    c10After.gamma = c10Start.gamma ∧ c10After.delta = c10Start.delta ∧
    c10After.massThreshold = c10Start.massThreshold ∧
    c10After.massMin = c10Start.massMin ∧ c10After.massMax = c10Start.massMax :=
  generateEvent_mass_in_range c10Start [0] c10After c10_generate_eq

open Filter in
/-- `arsinh` is unbounded below. -/
lemma tendsto_arsinh_atBot : Tendsto Real.arsinh atBot atBot := by
  have h : ⇑Real.sinhOrderIso.symm = Real.arsinh := rfl
  exact h ▸ Real.sinhOrderIso.symm.tendsto_atBot

open Filter in
/-- `arsinh` is unbounded above. -/
lemma tendsto_arsinh_atTop : Tendsto Real.arsinh atTop atTop := by
  have h : ⇑Real.sinhOrderIso.symm = Real.arsinh := rfl
  exact h ▸ Real.sinhOrderIso.symm.tendsto_atTop

open Filter Topology MeasureTheory in
/-- The upper tail of the Gaussian integrand vanishes at infinity. -/
lemma tendsto_gaussTail_zero :
    Tendsto (fun x : ℝ => ∫ t in Set.Ioi x, Real.exp (-t ^ 2)) atTop (𝓝 0) := by
  have hint : ∀ x : ℝ, IntegrableOn (fun t : ℝ => Real.exp (-t ^ 2)) (Set.Ioi x) := by
    intro x
    have h := (integrable_exp_neg_mul_sq (by norm_num : (0 : ℝ) < 1)).integrableOn
      (s := Set.Ioi x)
    simpa using h
  apply tendsto_of_tendsto_of_tendsto_of_le_of_le' tendsto_const_nhds
    Real.tendsto_exp_neg_atTop_nhds_zero
  · exact Eventually.of_forall (fun x => setIntegral_nonneg measurableSet_Ioi
      (fun t _ => (Real.exp_pos _).le))
  · filter_upwards [eventually_ge_atTop (1 : ℝ)] with x hx
    have hmono : (∫ t in Set.Ioi x, Real.exp (-t ^ 2)) ≤
        ∫ t in Set.Ioi x, Real.exp (-t) := by
      refine setIntegral_mono_on (hint x) ?_ measurableSet_Ioi ?_
      · simpa using exp_neg_integrableOn_Ioi x (by norm_num : (0 : ℝ) < 1)
      · intro t ht
        have h1t : (1 : ℝ) ≤ t := le_trans hx (le_of_lt ht)
        have hts : t ≤ t ^ 2 := by nlinarith
        exact Real.exp_le_exp.mpr (by linarith)
    calc (∫ t in Set.Ioi x, Real.exp (-t ^ 2)) ≤ ∫ t in Set.Ioi x, Real.exp (-t) :=
        hmono
      _ = Real.exp (-x) := integral_exp_neg_Ioi x

open Filter Topology in
/-- The complementary error function vanishes at infinity. -/
lemma tendsto_erfc_zero : Tendsto erfc atTop (𝓝 0) := by
  have h := tendsto_gaussTail_zero.const_mul (2 / Real.sqrt Real.pi)
  simpa [erfc] using h

/-- Evaluation of `analyticalIntegral` at the mass code. -/
lemma analyticalIntegral_kMass_eval (s : RooJohnson) (r : RooJohnsonRanges) :
    analyticalIntegral s kMass r =
      some (1 *
        (if 0.5 * (if (s.gamma + s.delta * Real.arsinh ((r.massMin - s.mu) / s.lambda)) *
              (s.gamma + s.delta * Real.arsinh ((r.massMax - s.mu) / s.lambda)) < 0 then
            2 - (erfc |(s.gamma + s.delta * Real.arsinh ((r.massMin - s.mu) / s.lambda)) /
                  Real.sqrt 2| +
                erfc |(s.gamma + s.delta * Real.arsinh ((r.massMax - s.mu) / s.lambda)) /
                  Real.sqrt 2|)
          else if (s.gamma + s.delta * Real.arsinh ((r.massMax - s.mu) / s.lambda)) ≤ 0 then
            erfc |(s.gamma + s.delta * Real.arsinh ((r.massMax - s.mu) / s.lambda)) /
                Real.sqrt 2| -
              erfc |(s.gamma + s.delta * Real.arsinh ((r.massMin - s.mu) / s.lambda)) /
                Real.sqrt 2|
          else
            erfc |(s.gamma + s.delta * Real.arsinh ((r.massMin - s.mu) / s.lambda)) /
                Real.sqrt 2| -
              erfc |(s.gamma + s.delta * Real.arsinh ((r.massMax - s.mu) / s.lambda)) /
                Real.sqrt 2|) ≠ 0 then
          0.5 * (if (s.gamma + s.delta * Real.arsinh ((r.massMin - s.mu) / s.lambda)) *
              (s.gamma + s.delta * Real.arsinh ((r.massMax - s.mu) / s.lambda)) < 0 then
            2 - (erfc |(s.gamma + s.delta * Real.arsinh ((r.massMin - s.mu) / s.lambda)) /
                  Real.sqrt 2| +
                erfc |(s.gamma + s.delta * Real.arsinh ((r.massMax - s.mu) / s.lambda)) /
                  Real.sqrt 2|)
          else if (s.gamma + s.delta * Real.arsinh ((r.massMax - s.mu) / s.lambda)) ≤ 0 then
            erfc |(s.gamma + s.delta * Real.arsinh ((r.massMax - s.mu) / s.lambda)) /
                Real.sqrt 2| -
              erfc |(s.gamma + s.delta * Real.arsinh ((r.massMin - s.mu) / s.lambda)) /
                Real.sqrt 2|
          else
            erfc |(s.gamma + s.delta * Real.arsinh ((r.massMin - s.mu) / s.lambda)) /
                Real.sqrt 2| -
              erfc |(s.gamma + s.delta * Real.arsinh ((r.massMax - s.mu) / s.lambda)) /
                Real.sqrt 2|)
        else 1e-300)) := by
  rfl

open Filter Topology in
/-- C8: with positive `lambda` and `delta`, the analytic integral over the
mass observable tends to one as the integration range grows to the full
real line. -/
theorem analyticalIntegral_mass_tendsto_one (s : RooJohnson)
    (hl : 0 < s.lambda) (hd : 0 < s.delta) (r : RooJohnsonRanges) :
    Tendsto (fun M : ℝ =>
      (analyticalIntegral s kMass { r with massMin := -M, massMax := M }).getD 0)
      atTop (𝓝 1) := by
  have hmn : Tendsto (fun M : ℝ =>
      s.gamma + s.delta * Real.arsinh ((-M - s.mu) / s.lambda)) atTop atBot := by
    apply tendsto_atBot_add_const_left
    refine (tendsto_const_mul_atBot_of_pos hd).mpr ?_
    refine tendsto_arsinh_atBot.comp ?_
    refine Tendsto.atBot_div_const hl ?_
    simpa [sub_eq_add_neg] using
      tendsto_atBot_add_const_right atTop (-s.mu)
        (tendsto_neg_atTop_atBot : Tendsto (fun x : ℝ => -x) atTop atBot)
  have hmx : Tendsto (fun M : ℝ =>
      s.gamma + s.delta * Real.arsinh ((M - s.mu) / s.lambda)) atTop atTop := by
    apply tendsto_atTop_add_const_left
    refine (tendsto_const_mul_atTop_of_pos hd).mpr ?_
    refine tendsto_arsinh_atTop.comp ?_
    refine Tendsto.atTop_div_const hl ?_
    simpa [sub_eq_add_neg] using
      tendsto_atTop_add_const_right atTop (-s.mu)
        (tendsto_id : Tendsto (fun x : ℝ => x) atTop atTop)
  have hsq2 : (0 : ℝ) < Real.sqrt 2 := Real.sqrt_pos.mpr (by norm_num)
  have hecmin : Tendsto (fun M : ℝ =>
      erfc |(s.gamma + s.delta * Real.arsinh ((-M - s.mu) / s.lambda)) /
        Real.sqrt 2|) atTop (𝓝 0) :=
    tendsto_erfc_zero.comp (tendsto_abs_atBot_atTop.comp
      (Tendsto.atBot_div_const hsq2 hmn))
  have hecmax : Tendsto (fun M : ℝ =>
      erfc |(s.gamma + s.delta * Real.arsinh ((M - s.mu) / s.lambda)) /
        Real.sqrt 2|) atTop (𝓝 0) :=
    tendsto_erfc_zero.comp (tendsto_abs_atTop_atTop.comp
      (Tendsto.atTop_div_const hsq2 hmx))
  have hres : Tendsto (fun M : ℝ => 0.5 *
      (2 - (erfc |(s.gamma + s.delta * Real.arsinh ((-M - s.mu) / s.lambda)) /
          Real.sqrt 2| +
        erfc |(s.gamma + s.delta * Real.arsinh ((M - s.mu) / s.lambda)) /
          Real.sqrt 2|))) atTop (𝓝 1) := by
    have hsum := hecmin.add hecmax
    have hsub : Tendsto (fun M : ℝ =>
        2 - (erfc |(s.gamma + s.delta * Real.arsinh ((-M - s.mu) / s.lambda)) /
            Real.sqrt 2| +
          erfc |(s.gamma + s.delta * Real.arsinh ((M - s.mu) / s.lambda)) /
            Real.sqrt 2|)) atTop (𝓝 (2 - (0 + 0))) :=
      tendsto_const_nhds.sub hsum
    have hmul := hsub.const_mul (0.5 : ℝ)
    have h1 : (0.5 : ℝ) * (2 - (0 + 0)) = 1 := by norm_num
    rw [h1] at hmul
    exact hmul
  refine Tendsto.congr' ?_ hres
  filter_upwards [hmn.eventually_lt_atBot 0, hmx.eventually_gt_atTop 0,
    hecmin.eventually (eventually_lt_nhds (by norm_num : (0 : ℝ) < 1 / 2)),
    hecmax.eventually (eventually_lt_nhds (by norm_num : (0 : ℝ) < 1 / 2))]
    with M h1 h2 h3 h4
  rw [analyticalIntegral_kMass_eval]
  dsimp only
  rw [if_pos (mul_neg_of_neg_of_pos h1 h2)]
  rw [if_pos (by nlinarith : (0.5 : ℝ) *
    (2 - (erfc |(s.gamma + s.delta * Real.arsinh ((-M - s.mu) / s.lambda)) /
        Real.sqrt 2| +
      erfc |(s.gamma + s.delta * Real.arsinh ((M - s.mu) / s.lambda)) /
        Real.sqrt 2|)) ≠ 0)]
  rw [Option.getD_some, one_mul]

open Filter Topology in
/-- Witness for C8: the unit Johnson PDF (`lambda = delta = 1`) has mass
integral tending to one over the growing symmetric range. -/
theorem analyticalIntegral_mass_tendsto_one_witness :
    Tendsto (fun M : ℝ =>
      (analyticalIntegral ⟨0, 0, 1, 0, 1, 0, -1, 1⟩ kMass
        { massMin := -M, massMax := M, muMin := 0, muMax := 0, lambdaMin := 1,
          lambdaMax := 1, gammaMin := 0, gammaMax := 0, deltaMin := 1,
          deltaMax := 1 }).getD 0) atTop (𝓝 1) :=
  analyticalIntegral_mass_tendsto_one ⟨0, 0, 1, 0, 1, 0, -1, 1⟩ one_pos one_pos
    { massMin := 0, massMax := 0, muMin := 0, muMax := 0, lambdaMin := 1,
      lambdaMax := 1, gammaMin := 0, gammaMax := 0, deltaMin := 1, deltaMax := 1 }
